import Mathlib

/-!
Shallow embedding of `numcodecs/jpeg2000.py`: the JPEG2000 codec adapter
(format sniffing, quality parameters, image description building, encode
and decode orchestration).  Python objects are modelled as follows:

* numpy arrays are `NDArray` records (a buffer id, a shape, a dtype and a
  contiguity flag); buffer contents live in an explicit `Store` (a list of
  flat element lists) so that views, copies and in-place slice assignment
  keep their Python semantics (`reshape` shares the buffer, `flatten` and
  `ascontiguousarray` allocate fresh buffers, `x[:] = v` writes to `x`'s
  buffer);
* Python exceptions are an `Except PyErr` result;
* the external OpenJPEG engine (`jpeg2k_encode` / `jpeg2k_decode`) is out
  of scope: `encode` returns the exact argument record handed to the
  engine, and `decode` is parametrised by the array the engine returns.
* Python floats (`snr`, `rate`, the tcp lists) are modelled as rationals:
  the code only compares them with zero and stores them, so no rounding
  behaviour is involved.
-/

/-- Python exception values, carrying the message. -/
inductive PyErr where
  | typeError : String → PyErr
  | valueError : String → PyErr
  | indexError : String → PyErr
  | assertionError : String → PyErr
deriving DecidableEq, Repr

/-- A numpy dtype as used by the codec: the kind character and item size in bytes. -/
structure Dtype where
  kind : Char
  itemsize : Nat
deriving DecidableEq, Repr

/-- The heap of flat buffers backing the arrays. -/
abbrev Store := List (List Int)

/-- Contents of buffer `i` (empty for a dangling id). -/
def Store.read (s : Store) (i : Nat) : List Int :=
  s.getD i []

/-- Overwrite buffer `i` (in-place slice assignment `x[:] = v`). -/
def Store.write (s : Store) (i : Nat) (d : List Int) : Store :=
  s.set i d

/-- A numpy ndarray: a view of a whole buffer with a shape, dtype and
contiguity flag.  All arrays appearing in this code view their buffer
contiguously in row-major order. -/
structure NDArray where
  buf : Nat
  shape : List Nat
  dtype : Dtype
  c_contiguous : Bool
deriving DecidableEq, Repr

/-- Python `a.flatten()`: always a copy, collapsed to one dimension.  The
copy is allocated as a fresh buffer at the end of the store. -/
def NDArray.flatten (a : NDArray) (s : Store) : NDArray × Store :=
  let d := Store.read s a.buf
  ({ buf := s.length, shape := [d.length], dtype := a.dtype, c_contiguous := true }, s ++ [d])

/-- JP2 magic from RFC 3745 (`JP2_RFC3745_MAGIC` in the source). -/
def JP2_RFC3745_MAGIC : List Nat :=
  [0x00, 0x00, 0x00, 0x0c, 0x6a, 0x50, 0x20, 0x20, 0x0d, 0x0a, 0x87, 0x0a]

/-- Short JP2 magic (`JP2_MAGIC` in the source). -/
def JP2_MAGIC : List Nat := [0x0d, 0x0a, 0x87, 0x0a]

/-- Raw codestream magic (`J2K_CODESTREAM_MAGIC` in the source). -/
def J2K_CODESTREAM_MAGIC : List Nat := [0xff, 0x4f, 0xff, 0x51]

/-- The `CodecFormat` enumeration from the source. -/
inductive CodecFormat where
  | OPJ_CODEC_J2K
  | OPJ_CODEC_JPT
  | OPJ_CODEC_JP2
  | OPJ_CODEC_JPP
  | OPJ_CODEC_JPX
deriving DecidableEq, Repr

/-- The `ColorSpace` enumeration from the source. -/
inductive ColorSpace where
  | OPJ_CLRSPC_UNSPECIFIED
  | OPJ_CLRSPC_SRGB
  | OPJ_CLRSPC_GRAY
  | OPJ_CLRSPC_SYCC
  | OPJ_CLRSPC_EYCC
  | OPJ_CLRSPC_CMYK
deriving DecidableEq, Repr

/-- The `ProgOrder` enumeration from the source. -/
inductive ProgOrder where
  | OPJ_LRCP
  | OPJ_RLCP
  | OPJ_RPCL
  | OPJ_PCRL
  | OPJ_CPRL
deriving DecidableEq, Repr

/-- `CodecFormat.get_codec_format`: Python slice comparison `buf[:n] == magic`
is `List.take n buf = magic` (a short buffer yields a short slice, which
never equals a longer magic). -/
def get_codec_format (buf : List Nat) : Except PyErr CodecFormat :=
  if buf.take JP2_RFC3745_MAGIC.length = JP2_RFC3745_MAGIC then
    .ok CodecFormat.OPJ_CODEC_JP2
  else if buf.take JP2_MAGIC.length = JP2_MAGIC then
    .ok CodecFormat.OPJ_CODEC_JP2
  else if buf.take J2K_CODESTREAM_MAGIC.length = J2K_CODESTREAM_MAGIC then
    .ok CodecFormat.OPJ_CODEC_J2K
  else
    .error (PyErr.valueError "Invalid JPEG2000 header")

/-- The `opj_cparameters` mirror `JPEG2000CParameters`.  Fields that the
source only ever holds at `None` are `Option Unit`; the two layer lists
are `Option (List Rat)` (`None` versus a Python list). -/
structure JPEG2000CParameters where
  tile_size_on : Bool
  cp_tx0 : Int
  cp_ty0 : Int
  cp_tdx : Nat
  cp_tdy : Nat
  cp_disto_alloc : Nat
  cp_fixed_alloc : Nat
  cp_fixed_quality : Nat
  cp_comment : Option String
  csty : Nat
  prog_order : ProgOrder
  pocs : Option Unit
  numpocs : Nat
  tcp_numlayers : Nat
  tcp_rates : Option (List Rat)
  tcp_distoratio : Option (List Rat)
  numresolution : Nat
  cblockw_init : Nat
  cblockh_init : Nat
  mode : Nat
  irreversible : Nat
  roi_compno : Int
  roi_shift : Nat
  res_spec : Nat
  prcw_init : Option Unit
  prch_init : Option Unit
  image_offset_x0 : Nat
  image_offset_y0 : Nat
  subsampling_dx : Nat
  subsampling_dy : Nat
  decod_format : Int
  cod_format : Int
  max_comp_size : Nat
  tp_on : Nat
  tp_flag : Nat
  tcp_mct : Nat
  jpip_on : Bool
  mct_data : Option Unit
  max_cs_size : Nat
  rsiz : Nat
deriving DecidableEq, Repr

/-- `JPEG2000CParameters.__init__`: the defaults, including the lossless
default where BOTH `tcp_rates` and `tcp_distoratio` are the list `[0.0]`. -/
def initCParameters : JPEG2000CParameters where
  tile_size_on := false
  cp_tx0 := 0
  cp_ty0 := 0
  cp_tdx := 0
  cp_tdy := 0
  cp_disto_alloc := 1
  cp_fixed_alloc := 0
  cp_fixed_quality := 0
  cp_comment := none
  csty := 0
  prog_order := ProgOrder.OPJ_LRCP
  pocs := none
  numpocs := 0
  tcp_numlayers := 1
  tcp_rates := some [0]
  tcp_distoratio := some [0]
  numresolution := 1
  cblockw_init := 64
  cblockh_init := 64
  mode := 0
  irreversible := 0
  roi_compno := -1
  roi_shift := 0
  res_spec := 0
  prcw_init := none
  prch_init := none
  image_offset_x0 := 0
  image_offset_y0 := 0
  subsampling_dx := 1
  subsampling_dy := 1
  decod_format := -1
  cod_format := -1
  max_comp_size := 0
  tp_on := 0
  tp_flag := 0
  tcp_mct := 0
  jpip_on := false
  mct_data := none
  max_cs_size := 0
  rsiz := 0

/-- `JPEG2000CParameters.set_rates`.  The source reads `rates[-1]`; every
call site passes a non-empty list, modelled with `getLastD`. -/
def set_rates (p : JPEG2000CParameters) (rates : List Rat) : JPEG2000CParameters :=
  { p with
    cp_disto_alloc := 1
    cp_fixed_quality := 0
    tcp_rates := some rates
    tcp_numlayers := rates.length
    irreversible := if rates.getLastD 1 = 0 then 0 else 1
    tcp_distoratio := none }

/-- `JPEG2000CParameters.set_psnrs`.  The source reads `psnrs[-1]`; every
call site passes a non-empty list, modelled with `getLastD`. -/
def set_psnrs (p : JPEG2000CParameters) (psnrs : List Rat) : JPEG2000CParameters :=
  { p with
    cp_disto_alloc := 0
    cp_fixed_quality := 1
    tcp_distoratio := some psnrs
    tcp_numlayers := psnrs.length
    irreversible := if psnrs.getLastD 1 = 0 then 0 else 1
    tcp_rates := none }

/-- The `opj_image_comptparm` mirror `CImageComptParm`. -/
structure CImageComptParm where
  dx : Nat
  dy : Nat
  x0 : Nat
  y0 : Nat
  h : Nat
  w : Nat
  sgnd : Nat
  prec : Nat
  bpp : Nat
deriving DecidableEq, Repr

/-- `CImageComptParm.__init__` from a (shape, dtype) pair: asserts the
array is 2D and integer typed, then reads `h = shape[-2]`, `w = shape[-1]`
and the dtype-derived fields. -/
def CImageComptParm.ofArray (shape : List Nat) (dt : Dtype) : Except PyErr CImageComptParm :=
  if shape.length = 2 then
    if dt.kind = 'u' ∨ dt.kind = 'i' then
      .ok { dx := 1, dy := 1, x0 := 0, y0 := 0
            h := shape.getD (shape.length - 2) 0
            w := shape.getD (shape.length - 1) 0
            sgnd := if dt.kind = 'i' then 1 else 0
            prec := dt.itemsize * 8
            bpp := dt.itemsize * 8 }
    else
      .error (PyErr.assertionError "Array must be integer type")
  else
    .error (PyErr.assertionError "Array must be 2D")

/-- The `opj_image` mirror `CImage`. -/
structure CImage where
  x0 : Nat
  x1 : Nat
  y0 : Nat
  y1 : Nat
  numcomps : Nat
  cmptparms : List CImageComptParm
  color_space : ColorSpace
deriving DecidableEq, Repr

/-- `CImage.__init__` from a component list (extents zero, grayscale). -/
def CImage.ofComponents (comps : List CImageComptParm) : CImage where
  x0 := 0
  x1 := 0
  y0 := 0
  y1 := 0
  numcomps := comps.length
  cmptparms := comps
  color_space := ColorSpace.OPJ_CLRSPC_GRAY

/-- The argument record `encode` hands to the external engine
`jpeg2k_encode`: the flat element data of the buffer view passed, its
dtype, the parameter record, the image description and the target
container format. -/
structure EncodeCall where
  data : List Int
  dtype : Dtype
  params : JPEG2000CParameters
  image : CImage
  fmt : CodecFormat
deriving DecidableEq, Repr

/-- Python negative tuple indexing `shape[-k]` (`k ≥ 1`): raises
IndexError when the tuple is too short. -/
def shapeGet (shape : List Nat) (k : Nat) : Except PyErr Nat :=
  if 1 ≤ k ∧ k ≤ shape.length then
    .ok (shape.getD (shape.length - k) 0)
  else
    .error (PyErr.indexError "tuple index out of range")

/-- `JPEG2000.reshape_buf`: rejects 1-D arrays, reshapes rank > 2 arrays
to `(-1, shape[-1])` (a view of the same buffer), returns rank-0 and
rank-2 arrays unchanged. -/
def reshape_buf (buf : NDArray) : Except PyErr NDArray :=
  if buf.shape.length = 1 then
    .error (PyErr.valueError "JPEG2000 only supports arrays of 2 or more dimensions.")
  else if 2 < buf.shape.length then
    .ok { buf with shape := [buf.shape.prod / buf.shape.getLastD 1, buf.shape.getLastD 1] }
  else
    .ok buf

/-- The data of `np.ascontiguousarray(a.transpose(2, 0, 1))` for a
row-major `(h, w, nc)` buffer: channel-major order, `out[(c,i,j)] =
data[(i,j,c)]`. -/
def transposeCHW (data : List Int) (h w nc : Nat) : List Int :=
  (List.range nc).flatMap fun c =>
    (List.range h).flatMap fun i =>
      (List.range w).map fun j => data.getD ((i * w + j) * nc + c) 0

/-- The quality-selection prelude of `JPEG2000.encode`: `set_psnrs([snr])`
when `snr > 0`, else `set_rates([rate])` when `rate > 0`, else the
defaults untouched. -/
def applyQuality (snr rate : Rat) (p : JPEG2000CParameters) : JPEG2000CParameters :=
  if 0 < snr then set_psnrs p [snr]
  else if 0 < rate then set_rates p [rate]
  else p

/-- `JPEG2000.encode`.  `snr` and `rate` are the constructor-stored
attributes; `buf` is the caller's array living in store `s` (the
`ensure_ndarray` wrapper is the identity on arrays).  On success the
result is the exact argument record handed to `jpeg2k_encode` together
with the store after any allocations. -/
def encode (snr rate : Rat) (buf : NDArray) (s : Store) : Except PyErr (EncodeCall × Store) :=
  if buf.c_contiguous = false then
    .error (PyErr.typeError "an array with contiguous memory is required")
  else if ¬ (buf.dtype.kind = 'i' ∨ buf.dtype.kind = 'u') then
    .error (PyErr.typeError "JPEG2000 only supports integer arrays")
  else if 4 < buf.dtype.itemsize then
    .error (PyErr.typeError "JPEG2000 does not support 64-bit integers")
  else
    if buf.shape.length = 2 then
      match CImageComptParm.ofArray buf.shape buf.dtype with
      | .error e => .error e
      | .ok comp =>
        .ok ({ data := Store.read s buf.buf
               dtype := buf.dtype
               params := { applyQuality snr rate initCParameters with
                           cp_tdx := buf.shape.getD 1 0, cp_tdy := buf.shape.getD 0 0 }
               image := { CImage.ofComponents [comp] with
                          x1 := buf.shape.getD 1 0, y1 := buf.shape.getD 0 0 }
               fmt := CodecFormat.OPJ_CODEC_J2K }, s)
    else if buf.shape.length = 3 ∧ (buf.shape.getD 2 0 = 3 ∨ buf.shape.getD 2 0 = 4) then
      -- Color image: transpose to channel-major; ascontiguousarray copies
      -- into a fresh buffer.  The source builds one CImageComptParm per 2D
      -- slice of the transposed array; the slices share shape and dtype so
      -- the components are identical.
      match CImageComptParm.ofArray [buf.shape.getD 0 0, buf.shape.getD 1 0] buf.dtype with
      | .error e => .error e
      | .ok comp =>
        .ok ({ data := transposeCHW (Store.read s buf.buf)
                         (buf.shape.getD 0 0) (buf.shape.getD 1 0) (buf.shape.getD 2 0)
               dtype := buf.dtype
               params := { applyQuality snr rate initCParameters with
                           cp_tdx := buf.shape.getD 1 0, cp_tdy := buf.shape.getD 0 0 }
               image := { CImage.ofComponents (List.replicate (buf.shape.getD 2 0) comp) with
                          x1 := buf.shape.getD 1 0, y1 := buf.shape.getD 0 0
                          color_space := ColorSpace.OPJ_CLRSPC_SRGB }
               fmt := CodecFormat.OPJ_CODEC_J2K },
             s ++ [transposeCHW (Store.read s buf.buf)
                     (buf.shape.getD 0 0) (buf.shape.getD 1 0) (buf.shape.getD 2 0)])
    else
      -- Tiling branch: `params.cp_tdx = buf.shape[-1]` and
      -- `params.cp_tdy = buf.shape[-2]` run before reshape_buf, so a
      -- rank-0 or rank-1 array raises IndexError here.
      match shapeGet buf.shape 1 with
      | .error e => .error e
      | .ok lastdim =>
        match shapeGet buf.shape 2 with
        | .error e => .error e
        | .ok d2 =>
          match reshape_buf buf with
          | .error e => .error e
          | .ok rbuf =>
            match CImageComptParm.ofArray rbuf.shape rbuf.dtype with
            | .error e => .error e
            | .ok comp =>
              .ok ({ data := Store.read s rbuf.buf
                     dtype := buf.dtype
                     params := { applyQuality snr rate initCParameters with
                                 cp_tdx := lastdim, cp_tdy := d2, tile_size_on := true }
                     image := { CImage.ofComponents [comp] with
                                x1 := rbuf.shape.getD 1 0, y1 := rbuf.shape.getD 0 0 }
                     fmt := CodecFormat.OPJ_CODEC_J2K }, s)

/-- `JPEG2000.decode`.  The external engine is abstracted by `result`, the
reconstructed array it returns (allocated in `s`).  With an output buffer
the source runs `out.flatten()[:] = result.flatten()[:]`: the right-hand
side is evaluated first, then the target primary `out.flatten()` — a COPY
of `out` — and the slice assignment writes into that copy's buffer.
Finally `result.flatten()` (another copy) is returned. -/
def decode (buf : List Nat) (result : NDArray) (out : Option NDArray) (s : Store) :
    Except PyErr (NDArray × Store) :=
  match get_codec_format buf with
  | .error e => .error e
  | .ok _fmt =>
    match out with
    | none =>
      let (ret, s₁) := result.flatten s
      .ok (ret, s₁)
    | some o =>
      let (rflat, s₁) := result.flatten s
      let (oflat, s₂) := o.flatten s₁
      let s₃ := Store.write s₂ oflat.buf (Store.read s₂ rflat.buf)
      let (ret, s₄) := result.flatten s₃
      .ok (ret, s₄)

/-- `JPEG2000.__init__`: validates the snr/rate pair and stores it. -/
def jpeg2000_init (snr rate : Rat) : Except PyErr (Rat × Rat) :=
  if 0 < snr ∧ 0 < rate then
    .error (PyErr.valueError "snr or rate can be specified but not both")
  else if snr < 0 then
    .error (PyErr.valueError "snr must be positive")
  else if rate < 0 then
    .error (PyErr.valueError "rate must be positive")
  else
    .ok (snr, rate)

/-- Whether an encode attempt was rejected with a TypeError. -/
def isTypeError (e : Except PyErr (EncodeCall × Store)) : Bool :=
  match e with
  | .error (PyErr.typeError _) => true
  | _ => false

/-! Helper lemmas shared by several claims. -/

/-- Python slice comparison against a fixed magic equals list-prefix. -/
theorem take_len_eq_iff (magic buf : List Nat) :
    buf.take magic.length = magic ↔ magic <+: buf := by
  rw [List.prefix_iff_eq_take]
  exact eq_comm

/-- List.getD through an append, right part. -/
theorem getD_append_right {α : Type} (l l' : List α) (n : Nat) (d : α) (h : l.length ≤ n) :
    (l ++ l').getD n d = l'.getD (n - l.length) d := by
  unfold List.getD
  rw [List.get?_eq_getElem?, List.getElem?_append_right h, ← List.get?_eq_getElem?]

/-- C7: format detection checks the RFC3745 12-byte magic, then the 4-byte
boxed-file magic, then the 4-byte raw-codestream magic, in that order,
returning the JP2 tag for the first two, the J2K tag for the third, and
the InvalidHeader ValueError when none is a prefix of the buffer. -/
theorem format_detection_priority (buf : List Nat) :
    get_codec_format buf =
      if JP2_RFC3745_MAGIC <+: buf then Except.ok CodecFormat.OPJ_CODEC_JP2
      else if JP2_MAGIC <+: buf then Except.ok CodecFormat.OPJ_CODEC_JP2
      else if J2K_CODESTREAM_MAGIC <+: buf then Except.ok CodecFormat.OPJ_CODEC_J2K
      else Except.error (PyErr.valueError "Invalid JPEG2000 header") := by
  unfold get_codec_format
  by_cases c1 : JP2_RFC3745_MAGIC <+: buf
  · rw [if_pos ((take_len_eq_iff _ _).mpr c1), if_pos c1]
  · rw [if_neg (fun h => c1 ((take_len_eq_iff _ _).mp h)), if_neg c1]
    by_cases c2 : JP2_MAGIC <+: buf
    · rw [if_pos ((take_len_eq_iff _ _).mpr c2), if_pos c2]
    · rw [if_neg (fun h => c2 ((take_len_eq_iff _ _).mp h)), if_neg c2]
      by_cases c3 : J2K_CODESTREAM_MAGIC <+: buf
      · rw [if_pos ((take_len_eq_iff _ _).mpr c3), if_pos c3]
      · rw [if_neg (fun h => c3 ((take_len_eq_iff _ _).mp h)), if_neg c3]

/-- C5 counterexample: the 4-byte boxed-file magic itself is a buffer of
length 4 < 12 yet format detection succeeds with the JP2 tag instead of
failing with InvalidHeader. -/
theorem short_magic_buffer_detected :
    get_codec_format [0x0d, 0x0a, 0x87, 0x0a] = Except.ok CodecFormat.OPJ_CODEC_JP2 ∧
      ([0x0d, 0x0a, 0x87, 0x0a] : List Nat).length < 12 :=
  ⟨rfl, by decide⟩

/-- C5 amended: a buffer shorter than the longest magic (12 bytes) can
never match the RFC3745 magic, so detection fails with InvalidHeader
exactly when neither 4-byte magic is a prefix of it. -/
theorem short_buffer_detection (buf : List Nat) (h : buf.length < 12) :
    (get_codec_format buf = Except.error (PyErr.valueError "Invalid JPEG2000 header") ↔
      ¬ JP2_MAGIC <+: buf ∧ ¬ J2K_CODESTREAM_MAGIC <+: buf) := by
  have hne : ¬ (buf.take JP2_RFC3745_MAGIC.length = JP2_RFC3745_MAGIC) := by
    intro he
    have hlen := congrArg List.length he
    rw [List.length_take] at hlen
    have h12 : JP2_RFC3745_MAGIC.length = 12 := rfl
    rw [h12] at hlen
    omega
  unfold get_codec_format
  rw [if_neg hne]
  by_cases c2 : JP2_MAGIC <+: buf
  · rw [if_pos ((take_len_eq_iff _ _).mpr c2)]
    simp [c2]
  · rw [if_neg (fun hh => c2 ((take_len_eq_iff _ _).mp hh))]
    by_cases c3 : J2K_CODESTREAM_MAGIC <+: buf
    · rw [if_pos ((take_len_eq_iff _ _).mpr c3)]
      simp [c3]
    · rw [if_neg (fun hh => c3 ((take_len_eq_iff _ _).mp hh))]
      simp [c2, c3]

/-- C5 amended, witness at the one-byte buffer `[0]`. -/
theorem short_buffer_detection_witness :
    ([0] : List Nat).length < 12 ∧
      (get_codec_format [0] = Except.error (PyErr.valueError "Invalid JPEG2000 header") ↔
        ¬ JP2_MAGIC <+: [0] ∧ ¬ J2K_CODESTREAM_MAGIC <+: [0]) :=
  ⟨by decide, short_buffer_detection [0] (by decide)⟩

/-- C9: the constructor rejects `snr > 0 ∧ rate > 0` and any negative
value with a ValueError, and accepts the lossless defaults `snr = rate = 0`. -/
theorem constructor_validation :
    (∀ snr rate : Rat, 0 < snr → 0 < rate →
      jpeg2000_init snr rate =
        Except.error (PyErr.valueError "snr or rate can be specified but not both")) ∧
    (∀ snr rate : Rat, snr < 0 ∨ rate < 0 →
      ∃ m, jpeg2000_init snr rate = Except.error (PyErr.valueError m)) ∧
    jpeg2000_init 0 0 = Except.ok (0, 0) := by
  refine ⟨?_, ?_, rfl⟩
  · intro snr rate h1 h2
    unfold jpeg2000_init
    rw [if_pos ⟨h1, h2⟩]
  · intro snr rate h
    unfold jpeg2000_init
    by_cases hb : 0 < snr ∧ 0 < rate
    · refine ⟨"snr or rate can be specified but not both", ?_⟩
      rw [if_pos hb]
    · rw [if_neg hb]
      by_cases hs : snr < 0
      · refine ⟨"snr must be positive", ?_⟩
        rw [if_pos hs]
      · rw [if_neg hs]
        have hr : rate < 0 := by
          rcases h with h | h
          · exact absurd h hs
          · exact h
        refine ⟨"rate must be positive", ?_⟩
        rw [if_pos hr]

/-- C9 witness: both-positive and negative inputs at concrete values, and
the accepted default is part of the theorem itself. -/
theorem constructor_validation_witness :
    jpeg2000_init 1 1 =
        Except.error (PyErr.valueError "snr or rate can be specified but not both") ∧
      ∃ m, jpeg2000_init (-1) 0 = Except.error (PyErr.valueError m) :=
  ⟨constructor_validation.1 1 1 (by norm_num) (by norm_num),
   constructor_validation.2.1 (-1) 0 (Or.inl (by norm_num))⟩

/-- C4: a rank-1 (and rank-0) array makes `encode` fail with the
IndexError from `buf.shape[-2]` (line 248), not with the dedicated
"arrays of 2 or more dimensions" ValueError; that dedicated error lives
in `reshape_buf`, which `encode` only reaches after reading `shape[-2]`,
so it is unreachable on these inputs. -/
theorem rank1_raises_index_error :
    encode 0 0 ⟨0, [5], ⟨'u', 1⟩, true⟩ [[1, 2, 3, 4, 5]] =
        Except.error (PyErr.indexError "tuple index out of range") ∧
      encode 0 0 ⟨0, [], ⟨'u', 1⟩, true⟩ [[1]] =
        Except.error (PyErr.indexError "tuple index out of range") ∧
      reshape_buf ⟨0, [5], ⟨'u', 1⟩, true⟩ =
        Except.error (PyErr.valueError "JPEG2000 only supports arrays of 2 or more dimensions.") :=
  ⟨rfl, rfl, rfl⟩

/-- C1: decode with a caller-supplied output buffer of matching element
count (4 elements) does NOT populate it: `out.flatten()` is a copy, the
slice assignment writes into that copy, and the caller's buffer (id 0)
still holds its old zeros while the returned value holds the decoded
data. -/
theorem decode_out_buffer_unchanged :
    (decode J2K_CODESTREAM_MAGIC ⟨1, [2, 2], ⟨'u', 1⟩, true⟩
        (some ⟨0, [4], ⟨'u', 1⟩, true⟩) [[0, 0, 0, 0], [1, 2, 3, 4]]).map
        (fun r => (Store.read r.2 0, Store.read r.2 r.1.buf)) =
      Except.ok ([0, 0, 0, 0], [1, 2, 3, 4]) := rfl

/-- C2 counterexample: with the default lossless configuration
(`snr = rate = 0`) neither `set_rates` nor `set_psnrs` runs, so the
parameter record handed to the engine has BOTH `tcp_rates = [0.0]` and
`tcp_distoratio = [0.0]` populated. -/
theorem lossless_default_both_lists_populated :
    (encode 0 0 ⟨0, [2, 2], ⟨'u', 1⟩, true⟩ [[1, 2, 3, 4]]).map
        (fun r => (r.1.params.tcp_rates, r.1.params.tcp_distoratio)) =
      Except.ok (some [0], some [0]) := rfl

/-- C3 counterexample: a contiguous rank-3 uint8 array of shape (2,5,5)
— trailing dimension 5 ∉ {3,4} — does not fail with any error: encode
reaches the engine through the tiling branch. -/
theorem rank3_odd_trailing_encodes :
    (encode 0 0 ⟨0, [2, 5, 5], ⟨'u', 1⟩, true⟩ [(List.range 50).map Int.ofNat]).map
        (fun r => r.1.params.tile_size_on) = Except.ok true := rfl

/-- C8: a non-contiguous, non-integer, or wider-than-32-bit array is
rejected with the TypeError raised by the validation prologue; no
engine-argument record is produced, so neither the parameter record nor
the image description is ever built. -/
theorem invalid_input_rejected (snr rate : Rat) (buf : NDArray) (s : Store)
    (h : buf.c_contiguous = false ∨ ¬ (buf.dtype.kind = 'i' ∨ buf.dtype.kind = 'u') ∨
      4 < buf.dtype.itemsize) :
    isTypeError (encode snr rate buf s) = true := by
  unfold encode
  by_cases h1 : buf.c_contiguous = false
  · rw [if_pos h1]
    rfl
  · rw [if_neg h1]
    by_cases h2 : ¬ (buf.dtype.kind = 'i' ∨ buf.dtype.kind = 'u')
    · rw [if_pos h2]
      rfl
    · rw [if_neg h2]
      have h3 : 4 < buf.dtype.itemsize := by
        rcases h with h | h | h
        · exact absurd h h1
        · exact absurd h h2
        · exact h
      rw [if_pos h3]
      rfl

/-- C8 witness: a non-contiguous array (Fortran-ordered or sliced in
numpy terms), a float array, and an 8-byte integer array are all
rejected. -/
theorem invalid_input_rejected_witness :
    isTypeError (encode 0 0 ⟨0, [2, 2], ⟨'u', 1⟩, false⟩ [[1, 2, 3, 4]]) = true ∧
      isTypeError (encode 0 0 ⟨0, [2, 2], ⟨'f', 4⟩, true⟩ [[1, 2, 3, 4]]) = true ∧
      isTypeError (encode 0 0 ⟨0, [2, 2], ⟨'u', 8⟩, true⟩ [[1, 2, 3, 4]]) = true :=
  ⟨invalid_input_rejected 0 0 _ _ (Or.inl rfl),
   invalid_input_rejected 0 0 _ _ (Or.inr (Or.inl (by decide))),
   invalid_input_rejected 0 0 _ _ (Or.inr (Or.inr (by decide)))⟩

/-- The component record `CImageComptParm.__init__` produces on a 2D
integer array. -/
theorem ofArray_ok (h0 w0 : Nat) (dt : Dtype) (hk : dt.kind = 'i' ∨ dt.kind = 'u') :
    CImageComptParm.ofArray [h0, w0] dt =
      Except.ok ⟨1, 1, 0, 0, h0, w0, if dt.kind = 'i' then 1 else 0,
        dt.itemsize * 8, dt.itemsize * 8⟩ := by
  unfold CImageComptParm.ofArray
  rw [if_pos (by simp), if_pos (by tauto)]
  rfl

/-- The validation prologue of `encode` rejects non-contiguous,
non-integer and too-wide arrays with a TypeError. -/
theorem encode_validation_rejects (snr rate : Rat) (buf : NDArray) (s : Store)
    (h : buf.c_contiguous = false ∨ ¬ (buf.dtype.kind = 'i' ∨ buf.dtype.kind = 'u') ∨
      4 < buf.dtype.itemsize) :
    isTypeError (encode snr rate buf s) = true := by
  unfold encode
  by_cases h1 : buf.c_contiguous = false
  · rw [if_pos h1]
    rfl
  · rw [if_neg h1]
    by_cases h2 : ¬ (buf.dtype.kind = 'i' ∨ buf.dtype.kind = 'u')
    · rw [if_pos h2]
      rfl
    · rw [if_neg h2]
      have h3 : 4 < buf.dtype.itemsize := by
        rcases h with h | h | h
        · exact absurd h h1
        · exact absurd h h2
        · exact h
      rw [if_pos h3]
      rfl

/-- Rank-0 arrays: `buf.shape[-1]` raises IndexError inside `encode`. -/
theorem encode_rank0 (snr rate : Rat) (buf : NDArray) (s : Store)
    (hsh : buf.shape = []) (hcont : buf.c_contiguous = true)
    (hkind : buf.dtype.kind = 'i' ∨ buf.dtype.kind = 'u')
    (hsize : buf.dtype.itemsize ≤ 4) :
    encode snr rate buf s = Except.error (PyErr.indexError "tuple index out of range") := by
  unfold encode
  rw [if_neg (by simp [hcont]), if_neg (not_not_intro hkind), if_neg (by omega), hsh]
  rfl

/-- Rank-1 arrays: `buf.shape[-2]` raises IndexError inside `encode`. -/
theorem encode_rank1 (snr rate : Rat) (buf : NDArray) (s : Store) (a : Nat)
    (hsh : buf.shape = [a]) (hcont : buf.c_contiguous = true)
    (hkind : buf.dtype.kind = 'i' ∨ buf.dtype.kind = 'u')
    (hsize : buf.dtype.itemsize ≤ 4) :
    encode snr rate buf s = Except.error (PyErr.indexError "tuple index out of range") := by
  unfold encode
  rw [if_neg (by simp [hcont]), if_neg (not_not_intro hkind), if_neg (by omega), hsh]
  rfl

/-- The rank-2 branch of `encode` in closed form. -/
theorem encode_rank2 (snr rate : Rat) (buf : NDArray) (s : Store) (h0 w0 : Nat)
    (hsh : buf.shape = [h0, w0]) (hcont : buf.c_contiguous = true)
    (hkind : buf.dtype.kind = 'i' ∨ buf.dtype.kind = 'u')
    (hsize : buf.dtype.itemsize ≤ 4) :
    encode snr rate buf s = Except.ok
      ({ data := Store.read s buf.buf
         dtype := buf.dtype
         params := { applyQuality snr rate initCParameters with cp_tdx := w0, cp_tdy := h0 }
         image := { CImage.ofComponents
             [⟨1, 1, 0, 0, h0, w0, if buf.dtype.kind = 'i' then 1 else 0,
               buf.dtype.itemsize * 8, buf.dtype.itemsize * 8⟩] with x1 := w0, y1 := h0 }
         fmt := CodecFormat.OPJ_CODEC_J2K }, s) := by
  unfold encode
  rw [if_neg (by simp [hcont]), if_neg (not_not_intro hkind), if_neg (by omega), hsh,
      if_pos (by simp), ofArray_ok h0 w0 buf.dtype hkind]
  rfl

/-- The rank-3 color branch of `encode` in closed form. -/
theorem encode_color (snr rate : Rat) (buf : NDArray) (s : Store) (h0 w0 nc : Nat)
    (hsh : buf.shape = [h0, w0, nc]) (hnc : nc = 3 ∨ nc = 4)
    (hcont : buf.c_contiguous = true)
    (hkind : buf.dtype.kind = 'i' ∨ buf.dtype.kind = 'u')
    (hsize : buf.dtype.itemsize ≤ 4) :
    encode snr rate buf s = Except.ok
      ({ data := transposeCHW (Store.read s buf.buf) h0 w0 nc
         dtype := buf.dtype
         params := { applyQuality snr rate initCParameters with cp_tdx := w0, cp_tdy := h0 }
         image := { CImage.ofComponents (List.replicate nc
             ⟨1, 1, 0, 0, h0, w0, if buf.dtype.kind = 'i' then 1 else 0,
               buf.dtype.itemsize * 8, buf.dtype.itemsize * 8⟩) with
             x1 := w0, y1 := h0, color_space := ColorSpace.OPJ_CLRSPC_SRGB }
         fmt := CodecFormat.OPJ_CODEC_J2K },
       s ++ [transposeCHW (Store.read s buf.buf) h0 w0 nc]) := by
  unfold encode
  rw [if_neg (by simp [hcont]), if_neg (not_not_intro hkind), if_neg (by omega), hsh,
      if_neg (by simp),
      if_pos (⟨by simp, by rw [show ([h0, w0, nc] : List Nat).getD 2 0 = nc from rfl]; exact hnc⟩ :
        ([h0, w0, nc] : List Nat).length = 3 ∧
          (([h0, w0, nc] : List Nat).getD 2 0 = 3 ∨ ([h0, w0, nc] : List Nat).getD 2 0 = 4)),
      show ([h0, w0, nc] : List Nat).getD 0 0 = h0 from rfl,
      show ([h0, w0, nc] : List Nat).getD 1 0 = w0 from rfl,
      show ([h0, w0, nc] : List Nat).getD 2 0 = nc from rfl,
      ofArray_ok h0 w0 buf.dtype hkind]

/-- The N-D tiling branch of `encode` in closed form: the reshaped view
shares the caller's buffer, the last two dimensions become the tile
extent, and the image extent is the reshaped `(prod / lastdim, lastdim)`. -/
theorem encode_tiling (snr rate : Rat) (buf : NDArray) (s : Store)
    (front : List Nat) (d2 d1 : Nat)
    (hsh : buf.shape = front ++ [d2, d1]) (hfr : 1 ≤ front.length)
    (hncol : ¬ (buf.shape.length = 3 ∧ (buf.shape.getD 2 0 = 3 ∨ buf.shape.getD 2 0 = 4)))
    (hcont : buf.c_contiguous = true)
    (hkind : buf.dtype.kind = 'i' ∨ buf.dtype.kind = 'u')
    (hsize : buf.dtype.itemsize ≤ 4) :
    encode snr rate buf s = Except.ok
      ({ data := Store.read s buf.buf
         dtype := buf.dtype
         params := { applyQuality snr rate initCParameters with
                     cp_tdx := d1, cp_tdy := d2, tile_size_on := true }
         image := { CImage.ofComponents
             [⟨1, 1, 0, 0, buf.shape.prod / d1, d1,
               if buf.dtype.kind = 'i' then 1 else 0,
               buf.dtype.itemsize * 8, buf.dtype.itemsize * 8⟩] with
             x1 := d1, y1 := buf.shape.prod / d1 }
         fmt := CodecFormat.OPJ_CODEC_J2K }, s) := by
  have hlen : buf.shape.length = front.length + 2 := by
    rw [hsh, List.length_append]
    rfl
  have hg1 : shapeGet buf.shape 1 = Except.ok d1 := by
    unfold shapeGet
    rw [if_pos ⟨le_refl 1, by omega⟩, hsh, List.length_append,
        getD_append_right _ _ _ _ (by simp only [List.length_cons, List.length_nil]; omega)]
    have hidx : front.length + ([d2, d1] : List Nat).length - 1 - front.length = 1 := by
      simp only [List.length_cons, List.length_nil]
      omega
    rw [hidx]
    rfl
  have hg2 : shapeGet buf.shape 2 = Except.ok d2 := by
    unfold shapeGet
    rw [if_pos ⟨by omega, by omega⟩, hsh, List.length_append,
        getD_append_right _ _ _ _ (by simp only [List.length_cons, List.length_nil]; omega)]
    have hidx : front.length + ([d2, d1] : List Nat).length - 2 - front.length = 0 := by
      simp only [List.length_cons, List.length_nil]
      omega
    rw [hidx]
    rfl
  have hlast : buf.shape.getLastD 1 = d1 := by
    rw [hsh, show front ++ [d2, d1] = (front ++ [d2]) ++ [d1] from by simp]
    exact List.getLastD_concat _ _ _
  have hrb : reshape_buf buf =
      Except.ok { buf with shape := [buf.shape.prod / d1, d1] } := by
    unfold reshape_buf
    rw [if_neg (by omega), if_pos (by omega), hlast]
  have hof : CImageComptParm.ofArray [buf.shape.prod / d1, d1] buf.dtype =
      Except.ok ⟨1, 1, 0, 0, buf.shape.prod / d1, d1,
        if buf.dtype.kind = 'i' then 1 else 0,
        buf.dtype.itemsize * 8, buf.dtype.itemsize * 8⟩ :=
    ofArray_ok (buf.shape.prod / d1) d1 buf.dtype hkind
  unfold encode
  rw [if_neg (by simp [hcont]), if_neg (not_not_intro hkind), if_neg (by omega),
      if_neg (by omega), if_neg hncol, hg1, hg2, hrb]
  dsimp only
  rw [hof]
  rfl

/-- Any list with at least three elements splits as a non-empty front
part plus its last two elements. -/
theorem exists_front_two (l : List Nat) (h : 3 ≤ l.length) :
    ∃ front d2 d1, l = front ++ [d2, d1] ∧ 1 ≤ front.length := by
  have hne : l ≠ [] := by
    intro he
    rw [he] at h
    simp at h
  obtain ⟨l1, d1, hl1⟩ : ∃ l1 d1, l = l1 ++ [d1] :=
    ⟨l.dropLast, l.getLast hne, (List.dropLast_append_getLast hne).symm⟩
  have hlen1 : l.length = l1.length + 1 := by
    rw [hl1]
    simp
  have hne1 : l1 ≠ [] := by
    intro he
    rw [he] at hlen1
    simp at hlen1
    omega
  obtain ⟨front, d2, hl2⟩ : ∃ front d2, l1 = front ++ [d2] :=
    ⟨l1.dropLast, l1.getLast hne1, (List.dropLast_append_getLast hne1).symm⟩
  refine ⟨front, d2, d1, ?_, ?_⟩
  · rw [hl1, hl2, List.append_assoc]
    rfl
  · have hlen2 : l1.length = front.length + 1 := by
      rw [hl2]
      simp
    omega

/-- Inversion for a successful `encode`: whichever branch ran, the tcp
layer lists of the parameter record are exactly those of the
quality-selection prelude, and the final store is the input store plus at
most the one fresh buffer the color branch allocates. -/
theorem encode_ok_inv (snr rate : Rat) (buf : NDArray) (s : Store) (call : EncodeCall)
    (s' : Store) (he : encode snr rate buf s = Except.ok (call, s')) :
    call.params.tcp_rates = (applyQuality snr rate initCParameters).tcp_rates ∧
    call.params.tcp_distoratio = (applyQuality snr rate initCParameters).tcp_distoratio ∧
    (s' = s ∨ s' = s ++ [call.data]) := by
  have hcont : buf.c_contiguous = true := by
    cases hcc : buf.c_contiguous
    · have hrej := encode_validation_rejects snr rate buf s (Or.inl hcc)
      rw [he] at hrej
      exact absurd hrej (by simp [isTypeError])
    · rfl
  have hkind : buf.dtype.kind = 'i' ∨ buf.dtype.kind = 'u' := by
    by_contra hk
    have hrej := encode_validation_rejects snr rate buf s (Or.inr (Or.inl hk))
    rw [he] at hrej
    exact absurd hrej (by simp [isTypeError])
  have hsize : buf.dtype.itemsize ≤ 4 := by
    by_contra hs4
    have hrej := encode_validation_rejects snr rate buf s (Or.inr (Or.inr (by omega)))
    rw [he] at hrej
    exact absurd hrej (by simp [isTypeError])
  by_cases h0 : buf.shape.length = 0
  · rw [encode_rank0 snr rate buf s (List.length_eq_zero.mp h0) hcont hkind hsize] at he
    exact Except.noConfusion he
  by_cases h1 : buf.shape.length = 1
  · obtain ⟨a, hsh⟩ := List.length_eq_one.mp h1
    rw [encode_rank1 snr rate buf s a hsh hcont hkind hsize] at he
    exact Except.noConfusion he
  by_cases h2 : buf.shape.length = 2
  · obtain ⟨a, b, hsh⟩ := List.length_eq_two.mp h2
    rw [encode_rank2 snr rate buf s a b hsh hcont hkind hsize] at he
    rw [Except.ok.injEq, Prod.mk.injEq] at he
    obtain ⟨hc, hs⟩ := he
    subst hs
    rw [← hc]
    exact ⟨rfl, rfl, Or.inl rfl⟩
  have h3 : 3 ≤ buf.shape.length := by omega
  by_cases hcol : buf.shape.length = 3 ∧ (buf.shape.getD 2 0 = 3 ∨ buf.shape.getD 2 0 = 4)
  · obtain ⟨a, b, c, hsh⟩ := List.length_eq_three.mp hcol.1
    have hgd : buf.shape.getD 2 0 = c := by
      rw [hsh]
      rfl
    have hc34 : c = 3 ∨ c = 4 := by
      rw [← hgd]
      exact hcol.2
    rw [encode_color snr rate buf s a b c hsh hc34 hcont hkind hsize] at he
    rw [Except.ok.injEq, Prod.mk.injEq] at he
    obtain ⟨hc, hs⟩ := he
    subst hs
    rw [← hc]
    exact ⟨rfl, rfl, Or.inr rfl⟩
  · obtain ⟨front, d2, d1, hsh, hfr⟩ := exists_front_two buf.shape h3
    rw [encode_tiling snr rate buf s front d2 d1 hsh hfr hcol hcont hkind hsize] at he
    rw [Except.ok.injEq, Prod.mk.injEq] at he
    obtain ⟨hc, hs⟩ := he
    subst hs
    rw [← hc]
    exact ⟨rfl, rfl, Or.inl rfl⟩

/-- C2 (amended): for SNR-controlled calls the engine receives
`tcp_distoratio = [snr]` and `tcp_rates = None`; for rate-controlled
calls it receives `tcp_rates = [rate]` and `tcp_distoratio = None`; but
for the lossless default (`snr = rate = 0`) BOTH lists stay populated at
their default `[0.0]`, so the exclusivity claimed for every call holds
only for the two quality-controlled paths. -/
theorem engine_layer_lists (snr rate : Rat) (buf : NDArray) (s : Store)
    (call : EncodeCall) (s' : Store)
    (he : encode snr rate buf s = Except.ok (call, s')) :
    (0 < snr → call.params.tcp_rates = none ∧ call.params.tcp_distoratio = some [snr]) ∧
    (¬ 0 < snr → 0 < rate →
      call.params.tcp_rates = some [rate] ∧ call.params.tcp_distoratio = none) ∧
    (¬ 0 < snr → ¬ 0 < rate →
      call.params.tcp_rates = some [0] ∧ call.params.tcp_distoratio = some [0]) := by
  obtain ⟨hr, hd, -⟩ := encode_ok_inv snr rate buf s call s' he
  refine ⟨fun hs => ?_, fun hs hrt => ?_, fun hs hrt => ?_⟩
  · rw [hr, hd]
    unfold applyQuality
    rw [if_pos hs]
    exact ⟨rfl, rfl⟩
  · rw [hr, hd]
    unfold applyQuality
    rw [if_neg hs, if_pos hrt]
    exact ⟨rfl, rfl⟩
  · rw [hr, hd]
    unfold applyQuality
    rw [if_neg hs, if_neg hrt]
    exact ⟨rfl, rfl⟩

/-- C2 amended, witness: an SNR-controlled encode at snr = 2. -/
theorem engine_layer_lists_witness :
    ∃ call s',
      encode 2 0 ⟨0, [2, 2], ⟨'u', 1⟩, true⟩ [[1, 2, 3, 4]] = Except.ok (call, s') ∧
        call.params.tcp_rates = none ∧ call.params.tcp_distoratio = some [2] :=
  ⟨_, _, rfl, (engine_layer_lists 2 0 ⟨0, [2, 2], ⟨'u', 1⟩, true⟩ [[1, 2, 3, 4]] _ _ rfl).1
    (by norm_num)⟩

/-- C6: for a contiguous integer array of rank at least 3 that is not the
rank-3 color case, encode produces one grayscale component, tiling
enabled, tile extent (shape[-2], shape[-1]), image extent
(product(shape[:-2]) * shape[-2]) rows by shape[-1] columns, and hands
the engine the caller's buffer data unchanged (the reshape is a view,
not a reorder or copy). -/
theorem ndtiling_image_description (snr rate : Rat) (buf : NDArray) (s : Store)
    (front : List Nat) (d2 d1 : Nat)
    (hsh : buf.shape = front ++ [d2, d1]) (hfr : 1 ≤ front.length)
    (hncol : ¬ (front.length = 1 ∧ (d1 = 3 ∨ d1 = 4))) (hd1 : 0 < d1)
    (hcont : buf.c_contiguous = true)
    (hkind : buf.dtype.kind = 'i' ∨ buf.dtype.kind = 'u')
    (hsize : buf.dtype.itemsize ≤ 4) :
    ∃ call s', encode snr rate buf s = Except.ok (call, s') ∧
      call.image.cmptparms.length = 1 ∧ call.image.numcomps = 1 ∧
      call.image.color_space = ColorSpace.OPJ_CLRSPC_GRAY ∧
      call.params.tile_size_on = true ∧
      call.params.cp_tdx = d1 ∧ call.params.cp_tdy = d2 ∧
      call.image.x1 = d1 ∧ call.image.y1 = front.prod * d2 ∧
      call.data = Store.read s buf.buf ∧ s' = s := by
  have hncol2 : ¬ (buf.shape.length = 3 ∧
      (buf.shape.getD 2 0 = 3 ∨ buf.shape.getD 2 0 = 4)) := by
    rintro ⟨hl, hg⟩
    rw [hsh, List.length_append] at hl
    have hf1 : front.length = 1 := by
      simp only [List.length_cons, List.length_nil] at hl
      omega
    have hgd : buf.shape.getD 2 0 = d1 := by
      rw [hsh, getD_append_right _ _ _ _ (by omega), hf1]
      rfl
    rw [hgd] at hg
    exact hncol ⟨hf1, hg⟩
  have hy : buf.shape.prod / d1 = front.prod * d2 := by
    rw [hsh, List.prod_append]
    simp only [List.prod_cons, List.prod_nil]
    rw [mul_one, ← mul_assoc]
    exact Nat.mul_div_cancel _ hd1
  refine ⟨_, _, encode_tiling snr rate buf s front d2 d1 hsh hfr hncol2 hcont hkind hsize,
    rfl, rfl, rfl, rfl, rfl, rfl, rfl, hy, rfl, rfl⟩

/-- C6 witness: a rank-4 uint8 array of shape (2,2,2,2). -/
theorem ndtiling_image_description_witness :
    ∃ call s',
      encode 0 0 ⟨0, [2, 2, 2, 2], ⟨'u', 1⟩, true⟩ [(List.range 16).map Int.ofNat] =
          Except.ok (call, s') ∧
        call.image.cmptparms.length = 1 ∧ call.image.numcomps = 1 ∧
        call.image.color_space = ColorSpace.OPJ_CLRSPC_GRAY ∧
        call.params.tile_size_on = true ∧
        call.params.cp_tdx = 2 ∧ call.params.cp_tdy = 2 ∧
        call.image.x1 = 2 ∧ call.image.y1 = ([2, 2] : List Nat).prod * 2 ∧
        call.data = Store.read [(List.range 16).map Int.ofNat] 0 ∧
        s' = [(List.range 16).map Int.ofNat] :=
  ndtiling_image_description 0 0 ⟨0, [2, 2, 2, 2], ⟨'u', 1⟩, true⟩
    [(List.range 16).map Int.ofNat] [2, 2] 2 2 rfl (by decide) (by decide) (by decide)
    rfl (Or.inr rfl) (by decide)

/-- C3 (amended): a contiguous integer rank-3 array whose trailing
dimension is neither 3 nor 4 is NOT rejected: encode silently treats it
with the N-D tiling policy (one grayscale component, tiling enabled). -/
theorem rank3_odd_trailing_is_tiled (snr rate : Rat) (buf : NDArray) (s : Store)
    (a b c : Nat) (hsh : buf.shape = [a, b, c]) (hc : ¬ (c = 3 ∨ c = 4)) (hcp : 0 < c)
    (hcont : buf.c_contiguous = true)
    (hkind : buf.dtype.kind = 'i' ∨ buf.dtype.kind = 'u')
    (hsize : buf.dtype.itemsize ≤ 4) :
    ∃ call s', encode snr rate buf s = Except.ok (call, s') ∧
      call.params.tile_size_on = true ∧
      call.image.numcomps = 1 ∧
      call.image.color_space = ColorSpace.OPJ_CLRSPC_GRAY ∧
      call.params.cp_tdx = c ∧ call.params.cp_tdy = b ∧
      call.image.x1 = c ∧ call.image.y1 = a * b ∧ s' = s := by
  have hsh' : buf.shape = [a] ++ [b, c] := by
    rw [hsh]
    rfl
  have hncol2 : ¬ (buf.shape.length = 3 ∧
      (buf.shape.getD 2 0 = 3 ∨ buf.shape.getD 2 0 = 4)) := by
    rintro ⟨-, hg⟩
    rw [hsh] at hg
    exact hc hg
  have ht := encode_tiling snr rate buf s [a] b c hsh' (by simp) hncol2 hcont hkind hsize
  refine ⟨_, _, ht, rfl, rfl, rfl, rfl, rfl, rfl, ?_, rfl⟩
  rw [hsh]
  simp only [List.prod_cons, List.prod_nil]
  rw [mul_one, ← mul_assoc]
  exact Nat.mul_div_cancel _ hcp

/-- C3 amended, witness: shape (2,5,5). -/
theorem rank3_odd_trailing_is_tiled_witness :
    ∃ call s',
      encode 0 0 ⟨0, [2, 5, 5], ⟨'u', 1⟩, true⟩ [(List.range 50).map Int.ofNat] =
          Except.ok (call, s') ∧
        call.params.tile_size_on = true ∧
        call.image.numcomps = 1 ∧
        call.image.color_space = ColorSpace.OPJ_CLRSPC_GRAY ∧
        call.params.cp_tdx = 5 ∧ call.params.cp_tdy = 5 ∧
        call.image.x1 = 5 ∧ call.image.y1 = 2 * 5 ∧
        s' = [(List.range 50).map Int.ofNat] :=
  rank3_odd_trailing_is_tiled 0 0 ⟨0, [2, 5, 5], ⟨'u', 1⟩, true⟩
    [(List.range 50).map Int.ofNat] 2 5 5 rfl (by decide) (by decide) rfl
    (Or.inr rfl) (by decide)

/-- C10: a successful encode never mutates the caller's array: the final
store still holds the input buffer's contents unchanged (the color branch
copies into a fresh buffer; the other branches only take views). -/
theorem encode_preserves_caller_buffer (snr rate : Rat) (buf : NDArray) (s : Store)
    (call : EncodeCall) (s' : Store) (hv : buf.buf < s.length)
    (he : encode snr rate buf s = Except.ok (call, s')) :
    Store.read s' buf.buf = Store.read s buf.buf := by
  obtain ⟨-, -, hst⟩ := encode_ok_inv snr rate buf s call s' he
  rcases hst with rfl | rfl
  · rfl
  · unfold Store.read
    exact List.getD_append _ _ _ _ hv

/-- C10 witness: the rank-3 color case (the one branch that allocates),
on a (1,1,3) array. -/
theorem encode_preserves_caller_buffer_witness :
    ∃ call s',
      encode 0 0 ⟨0, [1, 1, 3], ⟨'u', 1⟩, true⟩ [[7, 8, 9]] = Except.ok (call, s') ∧
        Store.read s' 0 = Store.read [[7, 8, 9]] 0 :=
  ⟨_, _, rfl, encode_preserves_caller_buffer 0 0 ⟨0, [1, 1, 3], ⟨'u', 1⟩, true⟩ [[7, 8, 9]]
    _ _ (by decide) rfl⟩
